import Mathlib

/-
Verification of the REST connector layer of the repository:
`src/integrations/vtiger_connector.py` (CrmConnector) and
`src/integrations/mautic_connector.py` (MarketingConnector), plus the
score-update tool in `src/agents/tools/vtiger_tools.py`.

The embedding is shallow: parsed JSON bodies and Python dicts become the
`JVal` type below, the HTTP transport becomes an explicit `HttpOutcome`
value (or a function from the page offset to an outcome, for pagination
loops), and an uncaught Python exception becomes the `.error` branch of
`Py α := Except String α`.  Each connector method is translated
line by line from the source; `print` calls (pure logging) are dropped.
-/

/-- A parsed JSON value / Python dictionary value. -/
inductive JVal where
  | null
  | bool (b : Bool)
  | num (n : Int)
  | str (s : String)
  | arr (elems : List JVal)
  | obj (fields : List (String × JVal))

/-- Python `d.get(k, default)` on a dict represented as an ordered field list
(first binding wins, as dicts cannot hold duplicate keys). -/
def dictGet (fields : List (String × JVal)) (k : String) (d : JVal) : JVal :=
  match fields with
  | [] => d
  | (k₁, v) :: rest => if k₁ = k then v else dictGet rest k d

/-- Python `d[k]` bracket access: `none` models a raised `KeyError`. -/
def dictGetOpt (fields : List (String × JVal)) (k : String) : Option JVal :=
  match fields with
  | [] => none
  | (k₁, v) :: rest => if k₁ = k then some v else dictGetOpt rest k

/-- Python `d[k] = v`: overwrite in place if the key exists (position kept),
otherwise append at the end (insertion order, Python 3.7+ dicts). -/
def dictSet (fields : List (String × JVal)) (k : String) (v : JVal) :
    List (String × JVal) :=
  match fields with
  | [] => [(k, v)]
  | (k₁, v₁) :: rest => if k₁ = k then (k₁, v) :: rest else (k₁, v₁) :: dictSet rest k v

/-- Python truthiness of a value (`if x:` / `if not x:`). -/
def JVal.truthy : JVal → Bool
  | .null => false
  | .bool b => b
  | .num n => n != 0
  | .str s => s != ""
  | .arr xs => !xs.isEmpty
  | .obj kvs => !kvs.isEmpty

mutual
/-- Python `repr` of a value, as rendered inside f-strings for containers.
(Python switches quote style when a string itself holds a quote; that corner
is not modelled, no claim touches it.) -/
def pyRepr : JVal → String
  | .null => "None"
  | .bool true => "True"
  | .bool false => "False"
  | .num n => toString n
  | .str s => "\x27" ++ s ++ "\x27"
  | .arr xs => "[" ++ pyReprList xs ++ "]"
  | .obj kvs => "\x7b" ++ pyReprFields kvs ++ "\x7d"

def pyReprList : List JVal → String
  | [] => ""
  | [x] => pyRepr x
  | x :: y :: xs => pyRepr x ++ ", " ++ pyReprList (y :: xs)

def pyReprFields : List (String × JVal) → String
  | [] => ""
  | [(k, v)] => "\x27" ++ k ++ "\x27: " ++ pyRepr v
  | (k, v) :: kv :: kvs =>
      "\x27" ++ k ++ "\x27: " ++ pyRepr v ++ ", " ++ pyReprFields (kv :: kvs)
end

/-- Python `str()` of a value, as f-string interpolation renders it. -/
def pyStr : JVal → String
  | .str s => s
  | v => pyRepr v

/-- Python `s.rstrip(c)` for a single strip character. -/
def rstripChar (c : Char) (s : String) : String :=
  String.mk (List.dropWhile (fun x => x = c) s.data.reverse).reverse

/-- The outcome of one HTTP round trip as seen by `_request`:
either a response (status, parsed JSON body if the body parses, raw text),
or an exception raised by the HTTP library. -/
inductive ReqExn where
  | connection
  | timeout
  | otherReq
deriving DecidableEq

inductive HttpOutcome where
  | resp (status : Nat) (body : Option JVal) (text : String)
  | exn (kind : ReqExn) (msg : String)

/-- An uncaught Python exception is the `.error` branch. -/
abbrev Py (α : Type) := Except String α

/-- Abstraction of the text of the `HTTPError` raised by
`response.raise_for_status()`; the real text also names the reason phrase
and URL, which are not modelled.  Only its shape as a non-empty string
embedded after the literal "Erro HTTP: " matters to any claim. -/
def httpErrText (status : Nat) : String := toString status ++ " Error"

/-- Abstraction of `str(e)` for the `ValueError` raised by
`response.json()` on an unparseable body. -/
def jsonDecodeErrText : String := "Expecting value: line 1 column 1 (char 0)"

/-! ## VtigerConnector (src/integrations/vtiger_connector.py) -/

/-- Error dict without a status code, `\x7b"success": False, "error": msg\x7d`. -/
def errObj (msg : String) : JVal :=
  .obj [("success", .bool false), ("error", .str msg)]

/-- Error dict with a status code,
`\x7b"success": False, "error": msg, "status_code": status\x7d`. -/
def errObjS (msg : String) (status : Nat) : JVal :=
  .obj [("success", .bool false), ("error", .str msg), ("status_code", .num status)]

/-- `VtigerConnector._request(method, endpoint, data)`, lines 25-72.
The transport (session plus remote) is abstracted as the `HttpOutcome` of the
one HTTP round trip the method performs; `endpoint` and `data` only shape that
round trip and are recorded at each call site.  Paths:
* unsupported method: `raise ValueError(...)` inside the `try`, caught by the
  `except ValueError` clause, returned as an error dict;
* `requests` exceptions: each `except` clause returns an error dict;
* status >= 400: `raise_for_status()` raises `HTTPError`; the handler reads
  `response.json().get("error", \x7b\x7d).get("message", response.text)` under a bare
  `except` (any failure in that chain falls back to `response.text`);
* parseable 2xx body that is not a JSON object: `response_json.get(...)`
  raises `AttributeError`, which no clause catches — an uncaught exception;
* body with falsy `success`: error dict embedding the nested code/message;
* otherwise: the parsed body is returned unchanged. -/
def vtiger_request (method : String) (o : HttpOutcome) : Py JVal :=
  if method = "GET" ∨ method = "POST" then
    match o with
    | .resp status body text =>
      if 400 ≤ status then
        let detail : String :=
          match body with
          | some (.obj kvs) =>
            match dictGet kvs "error" (.obj []) with
            | .obj ekvs => pyStr (dictGet ekvs "message" (.str text))
            | _ => text
          | _ => text
        .ok (errObjS ("Erro HTTP: " ++ httpErrText status ++ ". Detalhe: " ++ detail) status)
      else
        match body with
        | none => .ok (errObj jsonDecodeErrText)
        | some (.obj kvs) =>
          if (dictGet kvs "success" .null).truthy then .ok (.obj kvs)
          else
            match dictGet kvs "error" (.obj []) with
            | .obj ekvs =>
              let emsg := pyStr (dictGet ekvs "message" (.str "Erro desconhecido da API Vtiger."))
              let ecode := pyStr (dictGet ekvs "code" (.str "VTIGER_UNKNOWN_ERROR"))
              .ok (errObjS ("Erro da API Vtiger (" ++ ecode ++ "): " ++ emsg) status)
            | _ => .error "AttributeError: get"
        | some _ => .error "AttributeError: get"
    | .exn .connection m => .ok (errObj ("Erro de Conexão: " ++ m))
    | .exn .timeout m => .ok (errObj ("Timeout: " ++ m))
    | .exn .otherReq m => .ok (errObj ("Erro na Requisição: " ++ m))
  else
    .ok (errObj ("Método HTTP não suportado: " ++ method))

/-- `VtigerConnector.query(query_string)`, lines 74-88: one GET to the
`query` endpoint with `\x7b"query": query_string\x7d`; `http` is the outcome of
that round trip. -/
def vtiger_query (http : HttpOutcome) : Py JVal :=
  vtiger_request "GET" http

/-- The paginated VQL string built by `query_all`, line 101:
`f"\x7bbase_query.rstrip(chr(59))\x7d LIMIT \x7boffset\x7d, \x7bpage_size\x7d;"` with page size 100. -/
def paginatedQuery (base : String) (offset : Nat) : String :=
  rstripChar ';' base ++ " LIMIT " ++ toString offset ++ ", 100;"

/-- Python iteration of a value, as `list.extend` consumes it:
lists yield elements, strings characters, dicts keys; other values raise
`TypeError` (uncaught in the pagination loops). -/
def pyIterate : JVal → Py (List JVal)
  | .arr xs => .ok xs
  | .str s => .ok (s.data.map fun c => .str (String.singleton c))
  | .obj kvs => .ok (kvs.map fun kv => .str kv.1)
  | _ => .error "TypeError: object is not iterable"

/-- The `while True` loop of `VtigerConnector.query_all`, lines 95-125.
`http offset` is the outcome of the GET carrying `paginatedQuery base offset`
(within one call the issued request is determined by the offset).  The second
component is the trace of issued query strings, in order.  Steps: issue the
page, return any error dict at once, extend the accumulator, stop on a short
page (`len < 100`), advance the offset by 100, stop once `offset > 10000`. -/
def vtiger_query_all_loop (http : Nat → HttpOutcome) (base : String)
    (offset : Nat) (acc : List JVal) (trace : List String) :
    Py JVal × List String :=
  let q := paginatedQuery base offset
  let trace := trace ++ [q]
  match vtiger_request "GET" (http offset) with
  | .error e => (.error e, trace)
  | .ok (.obj kvs) =>
    if !(dictGet kvs "success" .null).truthy then (.ok (.obj kvs), trace)
    else
      match pyIterate (dictGet kvs "result" (.arr [])) with
      | .error e => (.error e, trace)
      | .ok page =>
        let acc := acc ++ page
        if page.length < 100 then
          (.ok (.obj [("success", .bool true), ("result", .arr acc)]), trace)
        else if h : offset + 100 > 10000 then
          (.ok (.obj [("success", .bool true), ("result", .arr acc)]), trace)
        else
          vtiger_query_all_loop http base (offset + 100) acc trace
  | .ok _ => (.error "AttributeError: get", trace)
termination_by 10000 - offset
decreasing_by omega

/-- `VtigerConnector.query_all(base_query)`, lines 90-125. -/
def vtiger_query_all (http : Nat → HttpOutcome) (base : String) :
    Py JVal × List String :=
  vtiger_query_all_loop http base 0 [] []

/-- The VQL string built by `retrieve_by_email`, line 134. -/
def retrieveQuery (email module : String) : String :=
  "SELECT * FROM " ++ module ++ " WHERE email = \x27" ++ email ++ "\x27 LIMIT 1;"

/-- `VtigerConnector.retrieve_by_email(email, module)`, lines 127-146:
issues `query(retrieveQuery email module)` (outcome `http`), propagates its
error dict under a fresh wrapper keeping the `error` value, returns the first
row when `result` is truthy (bracket indexing `[0]`, which raises for
non-indexable truthy values), and otherwise synthesizes the not-found error. -/
def vtiger_retrieve_by_email (http : HttpOutcome) (email module : String) : Py JVal :=
  match vtiger_query http with
  | .error e => .error e
  | .ok (.obj kvs) =>
    if !(dictGet kvs "success" .null).truthy then
      .ok (.obj [("success", .bool false),
                 ("error", dictGet kvs "error" (.str "Erro desconhecido na consulta."))])
    else
      match dictGet kvs "result" .null with
      | .arr (x :: _) => .ok (.obj [("success", .bool true), ("result", x)])
      | .arr [] =>
        .ok (errObj ("Nenhum registro de " ++ module ++
                     " encontrado com o email: " ++ email ++ "."))
      | .str s =>
        if s = "" then
          .ok (errObj ("Nenhum registro de " ++ module ++
                       " encontrado com o email: " ++ email ++ "."))
        else .ok (.obj [("success", .bool true), ("result", .str (String.singleton s.front))])
      | .null =>
        .ok (errObj ("Nenhum registro de " ++ module ++
                     " encontrado com o email: " ++ email ++ "."))
      | .bool b =>
        if b then .error "TypeError: not subscriptable"
        else .ok (errObj ("Nenhum registro de " ++ module ++
                          " encontrado com o email: " ++ email ++ "."))
      | .num n =>
        if n = 0 then
          .ok (errObj ("Nenhum registro de " ++ module ++
                       " encontrado com o email: " ++ email ++ "."))
        else .error "TypeError: not subscriptable"
      | .obj [] =>
        .ok (errObj ("Nenhum registro de " ++ module ++
                     " encontrado com o email: " ++ email ++ "."))
      | .obj (_ :: _) => .error "KeyError: 0"
  | .ok _ => .error "AttributeError: get"

/-- `VtigerConnector.update(record_id, values)`, lines 148-160.
First mutates the caller-supplied dict: `values["id"] = record_id`; then
POSTs `\x7b"operation": "update", "element": json.dumps(values)\x7d` to the
`update` endpoint (outcome `http`).  Returns the `_request` result paired
with the mutated dict the caller is left holding. -/
def vtiger_update (http : HttpOutcome) (record_id : JVal)
    (values : List (String × JVal)) : Py JVal × List (String × JVal) :=
  let mutated := dictSet values "id" record_id
  (vtiger_request "POST" http, mutated)

/-! ## MauticConnector (src/integrations/mautic_connector.py) -/

/-- The connector state `__init__` builds: normalized base URL, the header
dict, and the optional `session.auth` pair. -/
structure MauticConn where
  base_url : String
  headers : List (String × String)
  session_auth : Option (String × String)
deriving DecidableEq

/-- The headers set before authentication resolution, line 26. -/
def mauticBaseHeaders : List (String × String) :=
  [("Content-Type", "application/json"), ("Accept", "application/json")]

/-- Python truthiness of an optional string argument defaulting to `None`:
`None` and the empty string are falsy. -/
def optTruthy : Option String → Bool
  | none => false
  | some s => s != ""

/-- `MauticConnector.__init__`, lines 13-39, with its keyword-argument order
`(base_url, client_id, client_secret, access_token, username, password)`.
The `if/elif` chain: a truthy `access_token` sets a bearer header; else truthy
`username` and `password` set `session.auth`; else a truthy
`client_id`/`client_secret` pair only prints a warning (placeholder, no
authentication configured); else `raise ValueError(...)` — modelled as
`.error`, a construction-time failure. -/
def mautic_init (base_url : String)
    (client_id client_secret access_token username password : Option String) :
    Py MauticConn :=
  let conn : MauticConn := ⟨rstripChar '/' base_url, mauticBaseHeaders, none⟩
  if optTruthy access_token then
    .ok { conn with
          headers := mauticBaseHeaders ++
            [("Authorization", "Bearer " ++ access_token.getD "")] }
  else if optTruthy username && optTruthy password then
    .ok { conn with session_auth := some (username.getD "", password.getD "") }
  else if optTruthy client_id && optTruthy client_secret then
    .ok conn
  else
    .error "ValueError: Credenciais Mautic insuficientes. Forneça access_token ou username/password."

/-- `MauticConnector._request(method, endpoint, data)`, lines 51-88.
Same transport abstraction as `vtiger_request`.  Paths:
* unsupported method: `ValueError` raised and caught, error dict;
* any `requests.exceptions.RequestException` (which covers connection errors
  and timeouts): the single `except` clause returns an error dict;
* status >= 400: `HTTPError` handler reads
  `response.json().get("errors", [\x7b\x7d])[0].get("message", response.text)`
  under a bare `except` (any failure falls back to `response.text`);
* parseable 2xx non-object body: `response_json.get` raises `AttributeError`,
  uncaught;
* object body with truthy `errors`: when `errors` is a list headed by a dict,
  the validation error dict; a truthy `errors` of any other shape makes
  `response_json["errors"][0].get(...)` raise, uncaught;
* otherwise the parsed body is returned unchanged. -/
def mautic_request (method : String) (o : HttpOutcome) : Py JVal :=
  if method = "GET" ∨ method = "POST" ∨ method = "PATCH" then
    match o with
    | .resp status body text =>
      if 400 ≤ status then
        let detail : String :=
          match body with
          | some (.obj kvs) =>
            match dictGet kvs "errors" (.arr [.obj []]) with
            | .arr (.obj e0 :: _) => pyStr (dictGet e0 "message" (.str text))
            | _ => text
          | _ => text
        .ok (errObjS ("Erro HTTP: " ++ httpErrText status ++ ". Detalhe: " ++ detail) status)
      else
        match body with
        | none => .ok (errObj jsonDecodeErrText)
        | some (.obj kvs) =>
          if (dictGet kvs "errors" .null).truthy then
            match dictGet kvs "errors" .null with
            | .arr (.obj e0 :: _) =>
              let emsg := pyStr (dictGet e0 "message" (.str "Erro de validação Mautic."))
              .ok (errObjS ("Erro de Validação Mautic: " ++ emsg) status)
            | _ => .error "TypeError: indexing"
          else .ok (.obj kvs)
        | some _ => .error "AttributeError: get"
    | .exn _ m => .ok (errObj ("Erro na Requisição: " ++ m))
  else
    .ok (errObj ("Método HTTP não suportado: " ++ method))

/-- `MauticConnector.get_contact_by_email(email)`, lines 90-108: one GET to
`contacts` with `\x7b"search": "email:" ++ email, "limit": 1\x7d` (passed
positionally as `data`, outcome `http`).  `result.get("success", True)` lets
raw bodies (no `success` key) through; a truthy `contacts` dict yields its
first value as the hit; otherwise the synthesized not-found error. -/
def mautic_get_contact_by_email (http : HttpOutcome) (email : String) : Py JVal :=
  match mautic_request "GET" http with
  | .error e => .error e
  | .ok (.obj kvs) =>
    if !(dictGet kvs "success" (.bool true)).truthy then .ok (.obj kvs)
    else
      match dictGet kvs "contacts" .null with
      | .obj ((_, v) :: _) => .ok (.obj [("success", .bool true), ("result", v)])
      | .obj [] => .ok (errObj ("Nenhum contato encontrado com o email: " ++ email ++ "."))
      | .null => .ok (errObj ("Nenhum contato encontrado com o email: " ++ email ++ "."))
      | .bool b =>
        if b then .error "AttributeError: keys"
        else .ok (errObj ("Nenhum contato encontrado com o email: " ++ email ++ "."))
      | .num n =>
        if n = 0 then .ok (errObj ("Nenhum contato encontrado com o email: " ++ email ++ "."))
        else .error "AttributeError: keys"
      | .str s =>
        if s = "" then .ok (errObj ("Nenhum contato encontrado com o email: " ++ email ++ "."))
        else .error "AttributeError: keys"
      | .arr xs =>
        if xs.isEmpty then .ok (errObj ("Nenhum contato encontrado com o email: " ++ email ++ "."))
        else .error "AttributeError: keys"
  | .ok _ => .error "AttributeError: get"

/-- The `TypeError` text Python raises for an unexpected keyword argument
in the `list_contacts` body. -/
def mauticParamsErrText : String :=
  "TypeError: _request() got an unexpected keyword argument \x27params\x27"

/-- `MauticConnector.list_contacts(limit, start)`, lines 110-132.
The body builds `params = \x7b"limit": limit, "start": start\x7d` and then calls
`self._request("GET", endpoint, params=params)`.  `_request` is declared on
line 51 as `def _request(self, method, endpoint, data=None)` — it has no
`params` keyword parameter, so Python raises `TypeError` at this call, before
`_request` runs and before any HTTP request is issued.  The rest of the
method body (the success check and the `contacts` extraction) is dead code. -/
def mautic_list_contacts (limit start : Int) : Py JVal :=
  .error mauticParamsErrText

/-- The `while True` loop of `MauticConnector.list_all_contacts`,
lines 138-162, translated faithfully around `list_contacts`: page errors
returned at once, accumulator extension, short-page stop (`len < 100`),
`start += 100`, ceiling stop once `start > 10000`.  Because
`mautic_list_contacts` raises on every call, only the first arm is
reachable. -/
def mautic_list_all_contacts_loop (start : Nat) (acc : List JVal) : Py JVal :=
  match mautic_list_contacts 100 start with
  | .error e => .error e
  | .ok (.obj kvs) =>
    if !(dictGet kvs "success" .null).truthy then .ok (.obj kvs)
    else
      match pyIterate (dictGet kvs "result" (.arr [])) with
      | .error e => .error e
      | .ok page =>
        let acc := acc ++ page
        if page.length < 100 then
          .ok (.obj [("success", .bool true), ("result", .arr acc),
                     ("total_retrieved", .num acc.length)])
        else if h : start + 100 > 10000 then
          .ok (.obj [("success", .bool true), ("result", .arr acc),
                     ("total_retrieved", .num acc.length)])
        else
          mautic_list_all_contacts_loop (start + 100) acc
  | .ok _ => .error "AttributeError: get"
termination_by 10000 - start
decreasing_by omega

/-- `MauticConnector.list_all_contacts()`, lines 134-162. -/
def mautic_list_all_contacts : Py JVal :=
  mautic_list_all_contacts_loop 0 []

/-- `MauticConnector.add_tag_to_contact(contact_id, tag)`, lines 164-171:
one POST to `contacts/<id>/tags/add` with `\x7b"tags": [tag]\x7d`, outcome
`http`, result returned unchanged. -/
def mautic_add_tag_to_contact (http : HttpOutcome) : Py JVal :=
  mautic_request "POST" http

/-! ## update_vtiger_lead_score (src/agents/tools/vtiger_tools.py, lines 47-82) -/

/-- `update_vtiger_lead_score(email, new_score)`.  The module-level
`vtiger_connector` is modelled as initialized (when it is `None` the function
returns an error dict immediately, likewise without any HTTP call).
`lookupHttp`/`updateHttp` are the outcomes of the two HTTP round trips the
function can issue, and the second component records which calls were in fact
issued, in order.  Steps, as in the source: range check on `new_score`
(`< 0 or > 100` rejected before any call), `retrieve_by_email` lookup,
not-found wrapper on a falsy `success`, bracket extraction
`contact_data["result"]["id"]`, then `update` with
`\x7b"cf_lead_score": new_score\x7d` and the final status dict. -/
def update_vtiger_lead_score (lookupHttp updateHttp : HttpOutcome)
    (email : String) (new_score : Int) : Py (JVal × List String) :=
  if new_score < 0 ∨ new_score > 100 then
    .ok (.obj [("status", .str "error"),
               ("message", .str "Score inválido. Deve ser entre 0 e 100.")], [])
  else
    match vtiger_retrieve_by_email lookupHttp email "Contacts" with
    | .error e => .error e
    | .ok contact_data =>
      let calls := ["GET query: " ++ retrieveQuery email "Contacts"]
      match contact_data with
      | .obj kvs =>
        if !(dictGet kvs "success" .null).truthy then
          .ok (.obj [("status", .str "not_found"),
                     ("message", .str ("Contato com email " ++ email ++
                       " não encontrado para atualização."))], calls)
        else
          match dictGetOpt kvs "result" with
          | none => .error "KeyError: result"
          | some (.obj rkvs) =>
            match dictGetOpt rkvs "id" with
            | none => .error "KeyError: id"
            | some contact_id =>
              let upd := vtiger_update updateHttp contact_id
                [("cf_lead_score", JVal.num new_score)]
              let calls := calls ++ ["POST update"]
              match upd.1 with
              | .error e => .error e
              | .ok (.obj ukvs) =>
                if (dictGet ukvs "success" .null).truthy then
                  .ok (.obj [("status", .str "success"), ("email", .str email),
                             ("new_score", .num new_score),
                             ("message", .str ("Lead Score de " ++ email ++ " (ID: " ++
                               pyStr contact_id ++ ") atualizado com sucesso para " ++
                               toString new_score ++ "."))], calls)
                else
                  .ok (.obj [("status", .str "error"),
                             ("message", .str ("Falha ao atualizar o score de " ++ email ++
                               ". Detalhe: " ++ pyStr (dictGet ukvs "error" .null)))], calls)
              | .ok _ => .error "AttributeError: get"
          | some _ => .error "TypeError: not subscriptable"
      | _ => .error "AttributeError: get"

/-! ## Helpers for the statements -/

/-- `needle` occurs verbatim inside `hay`. -/
def strEmbeds (hay needle : String) : Prop :=
  ∃ a b : String, hay = a ++ needle ++ b

/-- A successful Vtiger-style page body carrying the given rows. -/
def okPage (xs : List JVal) : JVal :=
  .obj [("success", .bool true), ("result", .arr xs)]

/-- A sample contact record (shape of the mock record in the test suites). -/
def contactRec : JVal := .obj [("id", .str "20x12345")]

/-- A remote holding 150 records: a full page of 100 at offset 0,
then a page of 50 at every later offset (only offset 100 is ever asked). -/
def vtigerRemote150 : Nat → HttpOutcome := fun o =>
  if o = 0 then .resp 200 (some (okPage (List.replicate 100 contactRec))) ""
  else .resp 200 (some (okPage (List.replicate 50 contactRec))) ""

/-- A misbehaving remote that answers every page request with a full page
of 100 records. -/
def alwaysFullRemote : Nat → HttpOutcome := fun _ =>
  .resp 200 (some (okPage (List.replicate 100 contactRec))) ""

/-! ## C1 -/

/-- C1: for 150 total records served as a page of 100 then a page of 50, the
CRM side behaves as claimed: `query_all` issues exactly 2 requests, with
offsets 0 and 100 inside the issued query strings, and returns Ok with the
150 records concatenated in page-arrival order.  The marketing side refutes
the claim: `list_all_contacts` raises `TypeError` out of `list_contacts`
(`params` is not a keyword of `_request`) before any page request is issued,
instead of performing the 2 requests with `start` 0 and 100 that the claim
(and the repository test `test_list_contacts_pagination`) requires. -/
theorem claim_c1_pagination_150 :
    vtiger_query_all vtigerRemote150 "SELECT * FROM Contacts;" =
      (.ok (.obj [("success", .bool true),
                  ("result", .arr (List.replicate 100 contactRec ++ List.replicate 50 contactRec))]),
       ["SELECT * FROM Contacts LIMIT 0, 100;", "SELECT * FROM Contacts LIMIT 100, 100;"])
    ∧ (List.replicate 100 contactRec ++ List.replicate 50 contactRec).length = 150
    ∧ mautic_list_all_contacts = .error mauticParamsErrText := by
  refine ⟨?_, by simp, ?_⟩
  · have h0 : paginatedQuery "SELECT * FROM Contacts;" 0 = "SELECT * FROM Contacts LIMIT 0, 100;" := by
      decide
    have h1 : paginatedQuery "SELECT * FROM Contacts;" 100 = "SELECT * FROM Contacts LIMIT 100, 100;" := by
      decide
    simp [vtiger_query_all, vtiger_query_all_loop.eq_def, vtigerRemote150, vtiger_request,
          okPage, dictGet, JVal.truthy, pyIterate, h0, h1]
  · simp [mautic_list_all_contacts, mautic_list_all_contacts_loop, mautic_list_contacts]

/-! ## C4 -/

/-- C4: the connector operations are not total.  At the input of the
repository test `test_api_validation_error` (`list_contacts(limit=1, start=0)`),
`list_contacts` raises `TypeError` past its boundary — the call
`self._request("GET", endpoint, params=params)` passes a keyword `_request`
does not accept — instead of returning an Err-shaped result. -/
theorem claim_c4_list_contacts_raises :
    mautic_list_contacts 1 0 = .error mauticParamsErrText := rfl

/-! ## C2 -/

/-- Request-count bound for the `query_all` loop: starting at any offset it
issues at most `(10000 - offset) / 100 + 1` further page requests, under any
remote behavior. -/
lemma vtiger_query_all_loop_trace_le (http : Nat → HttpOutcome) (base : String) :
    ∀ fuel offset acc tr, 10000 - offset ≤ fuel →
      (vtiger_query_all_loop http base offset acc tr).2.length ≤
        tr.length + (10000 - offset) / 100 + 1 := by
  intro fuel
  induction fuel using Nat.strong_induction_on with
  | _ fuel ih =>
    intro offset acc tr hfuel
    rw [vtiger_query_all_loop.eq_def]
    cases hreq : vtiger_request "GET" (http offset) with
    | error e => simp
    | ok v =>
      cases v with
      | obj kvs =>
        by_cases hs : (!(dictGet kvs "success" JVal.null).truthy) = true
        · simp [hs]
        · simp only [hs]
          cases hit : pyIterate (dictGet kvs "result" (.arr [])) with
          | error e => simp
          | ok page =>
            by_cases hshort : page.length < 100
            · simp [hshort]
            · simp only [hshort]
              by_cases hceil : offset + 100 > 10000
              · simp [hceil]
              · simp only [hceil]
                have hlt : 10000 - (offset + 100) < fuel := by omega
                have := ih (10000 - (offset + 100)) hlt (offset + 100)
                  (acc ++ page) (tr ++ [paginatedQuery base offset]) (le_refl _)
                simp only [Bool.false_eq_true, if_false, dite_eq_ite] at *
                simp [hceil]
                calc (vtiger_query_all_loop http base (offset + 100) (acc ++ page)
                        (tr ++ [paginatedQuery base offset])).2.length
                    ≤ (tr ++ [paginatedQuery base offset]).length +
                        (10000 - (offset + 100)) / 100 + 1 := this
                  _ ≤ tr.length + (10000 - offset) / 100 + 1 := by
                        simp [List.length_append]; omega
      | null => simp
      | bool b => simp
      | num n => simp
      | str s => simp
      | arr xs => simp

set_option maxRecDepth 4000 in
/-- One unfolding of the `query_all` loop when the page request answers 200
with a successful body carrying `page`. -/
lemma vtiger_query_all_loop_okPage_step (http : Nat → HttpOutcome) (base : String)
    (offset : Nat) (acc : List JVal) (tr : List String) (page : List JVal)
    (hresp : http offset = .resp 200 (some (okPage page)) "") :
    vtiger_query_all_loop http base offset acc tr =
      if page.length < 100 then
        (.ok (.obj [("success", .bool true), ("result", .arr (acc ++ page))]),
         tr ++ [paginatedQuery base offset])
      else if offset + 100 > 10000 then
        (.ok (.obj [("success", .bool true), ("result", .arr (acc ++ page))]),
         tr ++ [paginatedQuery base offset])
      else
        vtiger_query_all_loop http base (offset + 100) (acc ++ page)
          (tr ++ [paginatedQuery base offset]) := by
  rw [vtiger_query_all_loop.eq_def, hresp]
  rfl

/-- Exact run of the `query_all` loop against `alwaysFullRemote`: starting at
offset `10000 - 100 * k` (with `k ≤ 100`) it performs exactly `k + 1` more
page requests and accumulates exactly `100 * (k + 1)` more records, stopping
at the ceiling check. -/
lemma vtiger_query_all_loop_full (base : String) :
    ∀ k, k ≤ 100 → ∀ acc tr,
      (vtiger_query_all_loop alwaysFullRemote base (10000 - 100 * k) acc tr).1 =
        .ok (.obj [("success", .bool true),
                   ("result", .arr (acc ++ List.replicate (100 * (k + 1)) contactRec))])
      ∧ (vtiger_query_all_loop alwaysFullRemote base (10000 - 100 * k) acc tr).2.length =
        tr.length + (k + 1) := by
  intro k
  induction k with
  | zero =>
    intro _ acc tr
    rw [vtiger_query_all_loop_okPage_step alwaysFullRemote base _ acc tr
          (List.replicate 100 contactRec) rfl]
    rw [if_neg (by simp), if_pos (by omega)]
    simp
  | succ k ihk =>
    intro hk acc tr
    have hk' : k ≤ 100 := Nat.le_of_succ_le hk
    have harith : 10000 - 100 * (k + 1) + 100 = 10000 - 100 * k := by omega
    rw [vtiger_query_all_loop_okPage_step alwaysFullRemote base _ acc tr
          (List.replicate 100 contactRec) rfl]
    rw [if_neg (by simp), if_neg (by omega), harith]
    obtain ⟨h1, h2⟩ := ihk hk' (acc ++ List.replicate 100 contactRec)
      (tr ++ [paginatedQuery base (10000 - 100 * (k + 1))])
    refine ⟨?_, ?_⟩
    · rw [h1]
      have hrep : List.replicate 100 contactRec ++ List.replicate (100 * (k + 1)) contactRec =
          List.replicate (100 * (k + 1 + 1)) contactRec := by
        have h100 : 100 + 100 * (k + 1) = 100 * (k + 1 + 1) := by ring
        rw [← List.replicate_add, h100]
      rw [List.append_assoc, hrep]
    · rw [h2]
      simp
      omega

/-- C2 counterexample: against the misbehaving remote that always returns a
full page of 100 records, `query_all` issues 101 page requests — not the
at-most-100 needed to reach 10,000 records — and accumulates 10,100 records,
exceeding the 10,000-record ceiling the claim states. -/
theorem claim_c2_counterexample :
    (vtiger_query_all alwaysFullRemote "SELECT * FROM Contacts;").2.length = 101
    ∧ ¬ (vtiger_query_all alwaysFullRemote "SELECT * FROM Contacts;").2.length ≤ 100
    ∧ (vtiger_query_all alwaysFullRemote "SELECT * FROM Contacts;").1 =
        .ok (.obj [("success", .bool true),
                   ("result", .arr (List.replicate 10100 contactRec))]) := by
  have h := vtiger_query_all_loop_full "SELECT * FROM Contacts;" 100 (le_refl 100) [] []
  norm_num at h
  refine ⟨h.2, by rw [vtiger_query_all] at *; omega, ?_⟩
  rw [vtiger_query_all]
  exact h.1

/-- C2 amended: under any remote behavior the `query_all` loop issues at most
101 page requests (not 100); under the always-full remote it issues exactly
101 and accumulates exactly 10,100 records (not 10,000), stopping at the
`offset > 10000` check; `list_all_contacts` never reaches its ceiling because
it raises `TypeError` before issuing any page request. -/
theorem claim_c2_amended :
    (∀ http base, (vtiger_query_all http base).2.length ≤ 101)
    ∧ (vtiger_query_all alwaysFullRemote "SELECT * FROM Contacts;").2.length = 101
    ∧ (vtiger_query_all alwaysFullRemote "SELECT * FROM Contacts;").1 =
        .ok (.obj [("success", .bool true),
                   ("result", .arr (List.replicate 10100 contactRec))])
    ∧ mautic_list_all_contacts = .error mauticParamsErrText := by
  refine ⟨?_, ?_, ?_, ?_⟩
  · intro http base
    have h := vtiger_query_all_loop_trace_le http base 10000 0 [] [] (by omega)
    simpa [vtiger_query_all] using h
  · have h := vtiger_query_all_loop_full "SELECT * FROM Contacts;" 100 (le_refl 100) [] []
    norm_num at h
    exact h.2
  · have h := vtiger_query_all_loop_full "SELECT * FROM Contacts;" 100 (le_refl 100) [] []
    norm_num at h
    rw [vtiger_query_all]
    exact h.1
  · simp [mautic_list_all_contacts, mautic_list_all_contacts_loop, mautic_list_contacts]

/-! ## C3 -/

/-- A transport that fails with a connection error on every page request. -/
def connDownRemote : Nat → HttpOutcome := fun _ => .exn .connection "down"

/-- C3: on the CRM side the claim holds — whenever the current page request
of the `query_all` loop produces an error dict (falsy `success`), the loop
returns exactly that dict at once, with no accumulated records attached and
with exactly one request (the failed page) added to the trace.  On the
marketing side the claim fails as a code bug: the very first page call of
`list_all_contacts` raises `TypeError` out of `list_contacts` before any
page request is issued, so no page can ever yield the `Err` the claim says
is propagated. -/
theorem claim_c3_err_propagation :
    (∀ (http : Nat → HttpOutcome) (base : String) (offset : Nat)
       (acc : List JVal) (tr : List String) (ekvs : List (String × JVal)),
       vtiger_request "GET" (http offset) = .ok (.obj ekvs) →
       (dictGet ekvs "success" JVal.null).truthy = false →
       vtiger_query_all_loop http base offset acc tr =
         (.ok (.obj ekvs), tr ++ [paginatedQuery base offset]))
    ∧ mautic_list_contacts 100 0 = .error mauticParamsErrText := by
  refine ⟨?_, rfl⟩
  intro http base offset acc tr ekvs hreq hfail
  rw [vtiger_query_all_loop.eq_def, hreq]
  simp [hfail]

/-- Witness for C3 at a concrete input: a remote that is down makes
`query_all` return the connection-error dict after exactly one request. -/
theorem claim_c3_err_propagation_witness :
    vtiger_query_all_loop connDownRemote "SELECT * FROM Contacts" 0 [] [] =
      (.ok (errObj "Erro de Conexão: down"),
       [paginatedQuery "SELECT * FROM Contacts" 0]) :=
  claim_c3_err_propagation.1 connDownRemote "SELECT * FROM Contacts" 0 [] []
    [("success", .bool false), ("error", .str "Erro de Conexão: down")] rfl rfl

/-! ## C5 -/

/-- C5: a 200-status CRM body whose top-level `success` is `false` makes
`_request` — and hence both `query` (GET) and `update` (POST) — return an
error dict whose message embeds the nested `error.code` and `error.message`
extracted from the body. -/
theorem claim_c5_logical_error (kvs ekvs : List (String × JVal)) (c m txt : String)
    (hs : dictGet kvs "success" JVal.null = .bool false)
    (he : dictGet kvs "error" (.obj []) = .obj ekvs)
    (hc : dictGet ekvs "code" (.str "VTIGER_UNKNOWN_ERROR") = .str c)
    (hm : dictGet ekvs "message" (.str "Erro desconhecido da API Vtiger.") = .str m) :
    vtiger_request "GET" (.resp 200 (some (.obj kvs)) txt) =
      .ok (errObjS ("Erro da API Vtiger (" ++ c ++ "): " ++ m) 200)
    ∧ vtiger_request "POST" (.resp 200 (some (.obj kvs)) txt) =
      .ok (errObjS ("Erro da API Vtiger (" ++ c ++ "): " ++ m) 200)
    ∧ strEmbeds ("Erro da API Vtiger (" ++ c ++ "): " ++ m) c
    ∧ strEmbeds ("Erro da API Vtiger (" ++ c ++ "): " ++ m) m := by
  refine ⟨?_, ?_,
    ⟨"Erro da API Vtiger (", "): " ++ m, by rw [String.append_assoc]⟩,
    ⟨"Erro da API Vtiger (" ++ c ++ "): ", "", by simp⟩⟩
  · simp [vtiger_request, hs, he, hc, hm, JVal.truthy, pyStr]
  · simp [vtiger_request, hs, he, hc, hm, JVal.truthy, pyStr]

/-- Witness for C5 at the body used by `test_query_vtiger_api_error`. -/
theorem claim_c5_logical_error_witness :
    vtiger_request "GET" (.resp 200 (some (.obj
        [("success", .bool false),
         ("error", .obj [("code", .str "INVALID_QUERY"),
                         ("message", .str "Sintaxe VQL inválida.")])])) "") =
      .ok (errObjS "Erro da API Vtiger (INVALID_QUERY): Sintaxe VQL inválida." 200) :=
  (claim_c5_logical_error
    [("success", .bool false),
     ("error", .obj [("code", .str "INVALID_QUERY"),
                     ("message", .str "Sintaxe VQL inválida.")])]
    [("code", .str "INVALID_QUERY"), ("message", .str "Sintaxe VQL inválida.")]
    "INVALID_QUERY" "Sintaxe VQL inválida." "" rfl rfl rfl rfl).1

/-! ## C6 -/

/-- The structured validation body from `test_api_validation_error`. -/
def mauticValidationBody : JVal :=
  .obj [("errors", .arr [.obj [("message", .str "O campo \x27email\x27 é obrigatório."),
                               ("code", .num 400)]])]

/-- C6: the validation-error branch is only reachable under a 2xx status.
At the repository test input (HTTP 400 with a structured
`errors[0].message` body), `raise_for_status` fires first and the connector
returns the generic HTTP-error form — the remote message appears only as the
detail of an "Erro HTTP" message, which is not the distinguishable
"Erro de Validação Mautic" form the claim (and the test) requires.  Under a
200 status the same body does produce the validation form. -/
theorem claim_c6_validation_error :
    mautic_request "GET" (.resp 400 (some mauticValidationBody) "") =
      .ok (errObjS ("Erro HTTP: " ++ httpErrText 400 ++ ". Detalhe: " ++
                    "O campo \x27email\x27 é obrigatório.") 400)
    ∧ ("Erro HTTP: " ++ httpErrText 400 ++ ". Detalhe: " ++
       "O campo \x27email\x27 é obrigatório.") ≠
        "Erro de Validação Mautic: O campo \x27email\x27 é obrigatório."
    ∧ mautic_request "GET" (.resp 200 (some mauticValidationBody) "") =
      .ok (errObjS ("Erro de Validação Mautic: " ++
                    "O campo \x27email\x27 é obrigatório.") 200) := by
  refine ⟨rfl, by decide, rfl⟩

/-! ## C7 -/

/-- A 200 CRM response with zero matching rows. -/
def vtigerZeroRows : JVal := .obj [("success", .bool true), ("result", .arr [])]

/-- A 200 marketing response with zero matching contacts. -/
def mauticZeroMatches : JVal := .obj [("total", .num 0), ("contacts", .obj [])]

/-- C7: on zero matches both lookups return the synthesized not-found error
dict — never Ok — and its message names the module and the email
(CRM side) resp. the email (marketing side). -/
theorem claim_c7_not_found (email module : String) :
    vtiger_retrieve_by_email (.resp 200 (some vtigerZeroRows) "") email module =
      .ok (errObj ("Nenhum registro de " ++ module ++
                   " encontrado com o email: " ++ email ++ "."))
    ∧ mautic_get_contact_by_email (.resp 200 (some mauticZeroMatches) "") email =
      .ok (errObj ("Nenhum contato encontrado com o email: " ++ email ++ "."))
    ∧ strEmbeds ("Nenhum registro de " ++ module ++
                 " encontrado com o email: " ++ email ++ ".") module
    ∧ strEmbeds ("Nenhum registro de " ++ module ++
                 " encontrado com o email: " ++ email ++ ".") email
    ∧ strEmbeds ("Nenhum contato encontrado com o email: " ++ email ++ ".") email := by
  refine ⟨rfl, rfl,
    ⟨"Nenhum registro de ", " encontrado com o email: " ++ email ++ ".",
      by simp [String.append_assoc]⟩,
    ⟨"Nenhum registro de " ++ module ++ " encontrado com o email: ", ".",
      by simp [String.append_assoc]⟩,
    ⟨"Nenhum contato encontrado com o email: ", ".", by simp [String.append_assoc]⟩⟩

/-! ## C8 -/

/-- Whether a connector call raised. -/
def pyIsError {α : Type} : Py α → Bool
  | .error _ => true
  | .ok _ => false

/-- C8: `MauticConnector.__init__` raises its configuration `ValueError`
exactly when none of the three credential shapes is supplied (truthy bearer
token; truthy username and password; truthy client id and secret), and the
`if/elif` chain gives an explicit bearer token precedence over basic-auth
credentials, which take precedence over a client-id/secret pair (the latter
configuring no authentication at all — the placeholder path). -/
theorem claim_c8_mautic_init (url : String) (cid cs tok u p : Option String) :
    (pyIsError (mautic_init url cid cs tok u p) = true ↔
      (optTruthy tok = false ∧ (optTruthy u && optTruthy p) = false ∧
       (optTruthy cid && optTruthy cs) = false))
    ∧ (optTruthy tok = true →
        mautic_init url cid cs tok u p =
          .ok ⟨rstripChar '/' url,
               mauticBaseHeaders ++ [("Authorization", "Bearer " ++ tok.getD "")], none⟩)
    ∧ (optTruthy tok = false → (optTruthy u && optTruthy p) = true →
        mautic_init url cid cs tok u p =
          .ok ⟨rstripChar '/' url, mauticBaseHeaders, some (u.getD "", p.getD "")⟩)
    ∧ (optTruthy tok = false → (optTruthy u && optTruthy p) = false →
        (optTruthy cid && optTruthy cs) = true →
        mautic_init url cid cs tok u p =
          .ok ⟨rstripChar '/' url, mauticBaseHeaders, none⟩) := by
  cases h1 : optTruthy tok <;> cases h2 : optTruthy u && optTruthy p <;>
    cases h3 : optTruthy cid && optTruthy cs <;>
    simp [mautic_init, pyIsError, h1, h2, h3]

/-- Witness for C8: a bearer token alone constructs the connector with the
Authorization header; no credentials at all raise at construction. -/
theorem claim_c8_mautic_init_witness :
    mautic_init "https://m.example/api" none none (some "tok") none none =
      .ok ⟨"https://m.example/api",
           mauticBaseHeaders ++ [("Authorization", "Bearer tok")], none⟩ :=
  (claim_c8_mautic_init "https://m.example/api" none none (some "tok") none none).2.1 rfl

/-! ## C9 -/

/-- C9: an out-of-range score (below 0 or above 100) makes
`update_vtiger_lead_score` return the error-status dict with an empty list of
issued HTTP calls — neither the lookup nor the update round trip happens. -/
theorem claim_c9_score_guard (lookupHttp updateHttp : HttpOutcome) (email : String)
    (new_score : Int) (h : new_score < 0 ∨ new_score > 100) :
    update_vtiger_lead_score lookupHttp updateHttp email new_score =
      .ok (.obj [("status", .str "error"),
                 ("message", .str "Score inválido. Deve ser entre 0 e 100.")], []) := by
  unfold update_vtiger_lead_score
  rw [if_pos h]

/-- Witness for C9 at score 101. -/
theorem claim_c9_score_guard_witness :
    update_vtiger_lead_score (.exn .connection "down") (.exn .connection "down")
        "joao@exemplo.com" 101 =
      .ok (.obj [("status", .str "error"),
                 ("message", .str "Score inválido. Deve ser entre 0 e 100.")], []) :=
  claim_c9_score_guard (.exn .connection "down") (.exn .connection "down")
    "joao@exemplo.com" 101 (Or.inr (by decide))

/-! ## C10 -/

/-- Looking up the key just set finds the new value. -/
lemma dictGetOpt_dictSet (fields : List (String × JVal)) (k : String) (v : JVal) :
    dictGetOpt (dictSet fields k v) k = some v := by
  induction fields with
  | nil => simp [dictSet, dictGetOpt]
  | cons kv rest ih =>
    obtain ⟨k₁, v₁⟩ := kv
    by_cases h : k₁ = k <;> simp [dictSet, dictGetOpt, h, ih]

/-- Setting one key leaves every other key unchanged. -/
lemma dictGetOpt_dictSet_ne (fields : List (String × JVal)) (k : String) (v : JVal)
    (k₁ : String) (hk : k₁ ≠ k) :
    dictGetOpt (dictSet fields k v) k₁ = dictGetOpt fields k₁ := by
  have hk2 : k ≠ k₁ := Ne.symm hk
  induction fields with
  | nil => simp [dictSet, dictGetOpt, hk2]
  | cons kv rest ih =>
    obtain ⟨k₂, v₂⟩ := kv
    by_cases h2 : k₂ = k
    · subst h2
      simp [dictSet, dictGetOpt, hk2]
    · by_cases h3 : k₂ = k₁ <;> simp [dictSet, dictGetOpt, h2, h3, hk, ih]

/-- C10 counterexample: when the caller-supplied map already binds `"id"` to
the record id, `update` leaves it exactly as it was — refuting the universal
"the map is not left unchanged by the call". -/
theorem claim_c10_counterexample :
    (vtiger_update (.exn .connection "down") (.str "20x12345")
        [("id", .str "20x12345")]).2 = [("id", .str "20x12345")] := rfl

/-- C10 amended: `update` does mutate the caller-supplied map in place by
inserting `"id" ↦ record_id` before serializing: afterwards the map binds
`"id"` to the record id, every other key is unchanged, and the map differs
from its pre-call value unless it already bound `"id"` to the record id. -/
theorem claim_c10_update_effect (http : HttpOutcome) (rid : JVal)
    (values : List (String × JVal)) :
    dictGetOpt (vtiger_update http rid values).2 "id" = some rid
    ∧ (∀ k, k ≠ "id" → dictGetOpt (vtiger_update http rid values).2 k = dictGetOpt values k)
    ∧ (dictGetOpt values "id" ≠ some rid → (vtiger_update http rid values).2 ≠ values) := by
  refine ⟨dictGetOpt_dictSet values "id" rid,
          fun k hk => dictGetOpt_dictSet_ne values "id" rid k hk, ?_⟩
  intro hne heq
  apply hne
  calc dictGetOpt values "id"
      = dictGetOpt (vtiger_update http rid values).2 "id" := by rw [heq]
    _ = some rid := dictGetOpt_dictSet values "id" rid

/-- Witness for C10 amended at a map without an `"id"` key. -/
theorem claim_c10_update_effect_witness :
    dictGetOpt (vtiger_update (.exn .connection "down") (.str "20x9")
        [("cf_lead_score", .num 77)]).2 "id" = some (.str "20x9")
    ∧ dictGetOpt (vtiger_update (.exn .connection "down") (.str "20x9")
        [("cf_lead_score", .num 77)]).2 "cf_lead_score" = some (.num 77)
    ∧ (vtiger_update (.exn .connection "down") (.str "20x9")
        [("cf_lead_score", .num 77)]).2 ≠ [("cf_lead_score", .num 77)] := by
  have h := claim_c10_update_effect (.exn .connection "down") (.str "20x9")
    [("cf_lead_score", .num 77)]
  refine ⟨h.1, h.2.1 "cf_lead_score" (by decide), h.2.2 ?_⟩
  intro hcontra
  exact Option.noConfusion hcontra

/-- Witness for C7 at the email used by the repository tests. -/
theorem claim_c7_not_found_witness :
    vtiger_retrieve_by_email (.resp 200 (some vtigerZeroRows) "")
        "naoexiste@exemplo.com" "Contacts" =
      .ok (errObj "Nenhum registro de Contacts encontrado com o email: naoexiste@exemplo.com.")
    ∧ mautic_get_contact_by_email (.resp 200 (some mauticZeroMatches) "")
        "naoexiste@exemplo.com" =
      .ok (errObj "Nenhum contato encontrado com o email: naoexiste@exemplo.com.") :=
  ⟨(claim_c7_not_found "naoexiste@exemplo.com" "Contacts").1,
   (claim_c7_not_found "naoexiste@exemplo.com" "Contacts").2.1⟩

/-- A remote holding exactly 100 records: a full page at offset 0, an empty
page afterwards. -/
def vtigerRemote100 : Nat → HttpOutcome := fun o =>
  if o = 0 then .resp 200 (some (okPage (List.replicate 100 contactRec))) ""
  else .resp 200 (some (okPage [])) ""

/-- Supporting observation: for a record count that is a multiple of the page
size the loop needs one extra (empty) page to see the short-page condition —
100 records take 2 requests, not ceil(100/100) = 1. -/
lemma vtiger_query_all_100_records :
    (vtiger_query_all vtigerRemote100 "SELECT * FROM Contacts;").2.length = 2 := by
  simp [vtiger_query_all, vtiger_query_all_loop.eq_def, vtigerRemote100, vtiger_request,
        okPage, dictGet, JVal.truthy, pyIterate]
